import Mathlib

/-!
Shallow embedding of the Membership-Aware Cache & Visibility Engine of the
`my_uni_hub` backend (Django app `communities`), together with theorems that
settle the specification claims about it.

Conventions of the embedding:
* Database tables (`Community`, `Membership`, `Post`) are lists of records in
  a `State`; the Django ORM queries of the source become list operations.
* Every function is translated at its cache-miss (cold cache) branch: the
  external TTL cache starts empty, so each `cache.get` returns `None` and the
  source falls through to the database query that is modelled here.
  Cache writes/invalidations have no observable effect on the modelled state.
* Python `max(0, n)` on the integer counter fields is modelled on `Int`.
* Django signals (`signals.py`) fire synchronously on row save/delete; the
  embedding applies their effect inline where the source triggers them.
-/

namespace UniHub

/-- `Membership.role` choices (`models/community.py`, `ROLE_CHOICES`). -/
inductive Role where
  | member
  | moderator
  | admin
deriving DecidableEq, Repr

/-- `Membership.status` choices (`models/community.py`, `STATUS_CHOICES`). -/
inductive MStatus where
  | pending
  | approved
  | rejected
deriving DecidableEq, Repr

/-- `Post.visibility` choices (`models/post.py`): public / members / admin. -/
inductive Visibility where
  | vpublic
  | vmembers
  | vadmin
deriving DecidableEq, Repr

/-- A `Membership` row: (user, community) pair with role and status
(`models/community.py`, class `Membership`; `unique_together = (user, community)`). -/
structure Membership where
  userId : Nat
  communityId : Nat
  role : Role
  status : MStatus
deriving DecidableEq, Repr

/-- A `Community` row (`models/community.py`, class `Community`), restricted to
the columns the claims touch. -/
structure Community where
  id : Nat
  name : String
  slug : String
  creatorId : Nat
  isPrivate : Bool
  requiresApproval : Bool
  memberCountCache : Nat
deriving DecidableEq, Repr

/-- A `Post` row (`models/post.py`), restricted to the columns the claims
touch; `upvotes` is the M2M user-id set, `upvoteCountCache` the persisted
counter field. -/
structure Post where
  id : Nat
  communityId : Nat
  visibility : Visibility
  isPinned : Bool
  upvotes : List Nat
  upvoteCountCache : Int
deriving DecidableEq, Repr

/-- The relational state: the three tables the claims quantify over. -/
structure State where
  communities : List Community
  memberships : List Membership
  posts : List Post
deriving DecidableEq, Repr

/-- `Membership.objects.filter(user=u, community=c, status='approved').exists()`. -/
def isApprovedMember (ms : List Membership) (uid cid : Nat) : Bool :=
  ms.any fun m => m.userId == uid && m.communityId == cid && m.status == MStatus.approved

/-- `Membership.objects.filter(user=u, community=c, status='approved', role='admin').exists()`. -/
def isApprovedAdmin (ms : List Membership) (uid cid : Nat) : Bool :=
  ms.any fun m =>
    m.userId == uid && m.communityId == cid && m.status == MStatus.approved &&
      m.role == Role.admin

/-- `Membership.objects.filter(user=u, status='approved').values_list('community_id')`
(`post_service.py:109`): the viewer's approved-membership community-id set. -/
def approvedMemberCommunities (ms : List Membership) (uid : Nat) : List Nat :=
  (ms.filter fun m => m.userId == uid && m.status == MStatus.approved).map
    fun m => m.communityId

/-- `Membership.objects.filter(user=u, status='approved', role='admin').values_list('community_id')`
(`post_service.py:122`): the viewer's admin community-id set. -/
def adminMemberCommunities (ms : List Membership) (uid : Nat) : List Nat :=
  (ms.filter fun m =>
      m.userId == uid && m.status == MStatus.approved && m.role == Role.admin).map
    fun m => m.communityId

/-- Lookup of a post's community row (`post.community` foreign key). -/
def communityOf (s : State) (p : Post) : Option Community :=
  s.communities.find? fun c => c.id == p.communityId

/-- The visibility predicate of `PostService.get_post_queryset`
(`post_service.py:96-180`) applied to one post: for an anonymous viewer the
filter `community__is_private=False, visibility='public'`; for an
authenticated viewer the union of the three Q clauses
(public-in-non-private ∨ member-communities ∧ public-or-members ∨
admin-communities).  The membership-id sets are the cold-cache (database)
values; a post whose community row is absent is dropped by the SQL join. -/
def postVisibleInQueryset (s : State) (viewer : Option Nat) (p : Post) : Bool :=
  match communityOf s p with
  | none => false
  | some c =>
    match viewer with
    | none => !c.isPrivate && p.visibility == Visibility.vpublic
    | some uid =>
      (!c.isPrivate && p.visibility == Visibility.vpublic)
        || ((approvedMemberCommunities s.memberships uid).contains p.communityId &&
              (p.visibility == Visibility.vpublic || p.visibility == Visibility.vmembers))
        || (adminMemberCommunities s.memberships uid).contains p.communityId

/-- `PostService.get_post_queryset` (`post_service.py:14-192`) with no
slug/type/search filter: `Post.objects.all()` filtered by the visibility
clauses above.  The trailing `order_by('-is_pinned', '-created_at')` permutes
the rows without changing which posts appear and is not modelled. -/
def get_post_queryset (s : State) (viewer : Option Nat) : List Post :=
  s.posts.filter fun p => postVisibleInQueryset s viewer p

/-- Modelled from the spec: the per-post decision table of section 4.4
(`visible(viewer, post)`), including its "authenticated, admin or creator ⇒
yes" row.  Used as the specification side of the refinement claims. -/
def specVisible (s : State) (viewer : Option Nat) (p : Post) (c : Community) : Bool :=
  match viewer with
  | none => !c.isPrivate && p.visibility == Visibility.vpublic
  | some uid =>
    if uid == c.creatorId || isApprovedAdmin s.memberships uid c.id then true
    else if isApprovedMember s.memberships uid c.id then
      p.visibility == Visibility.vpublic || p.visibility == Visibility.vmembers
    else !c.isPrivate && p.visibility == Visibility.vpublic

/-- `PostViewSet.retrieve` (`post_views.py:435-491`): the single-post access
decision, `true` when the post is served and `false` on the 403 branches.
The membership is freshly resolved with
`Membership.objects.get(user=u, community=c, status='approved')`. -/
def retrievePost (s : State) (viewer : Option Nat) (p : Post) (c : Community) : Bool :=
  match viewer with
  | none => !(p.visibility != Visibility.vpublic || c.isPrivate)
  | some uid =>
    match s.memberships.find? (fun m =>
        m.userId == uid && m.communityId == c.id && m.status == MStatus.approved) with
    | none => !(p.visibility != Visibility.vpublic || c.isPrivate)
    | some m => m.role == Role.admin || p.visibility != Visibility.vadmin

/-- `Membership.objects.filter(community=c, status='approved').count()`: the
approved-member count of a community (`signals.py:36-39`). -/
def approvedCount (ms : List Membership) (cid : Nat) : Nat :=
  (ms.filter fun m => m.communityId == cid && m.status == MStatus.approved).length

/-- The community's approved members holding role admin:
`count(Membership where community=c, status=approved, role=admin)`. -/
def approvedAdminCount (ms : List Membership) (cid : Nat) : Nat :=
  (ms.filter fun m =>
      m.communityId == cid && m.status == MStatus.approved && m.role == Role.admin).length

/-- `Membership.objects.filter(community=c, role='admin').count()`: the guard
count used by `leave_community` and `update_member_role`
(`community_service.py:131-134, 246-249`) — note it does not filter on
status. -/
def adminRoleCount (ms : List Membership) (cid : Nat) : Nat :=
  (ms.filter fun m => m.communityId == cid && m.role == Role.admin).length

/-- The `update_community_member_count` signal receiver (`signals.py:27-40`):
on any `Membership` save/delete, set the community's `member_count_cache` to
the approved-membership count (`Community.objects.filter(id=...).update(...)`).
The cache-key deletions it also performs touch only the external cache. -/
def update_community_member_count (s : State) (cid : Nat) : State :=
  { s with
    communities := s.communities.map fun c =>
      if c.id == cid then { c with memberCountCache := approvedCount s.memberships cid }
      else c }

/-- The `Community.member_count` property (`models/community.py:92-95`):
the cached count when it is positive, else `self.members.count()` — the M2M
through `Membership` counts every row for the community regardless of status. -/
def member_count (s : State) (c : Community) : Nat :=
  if c.memberCountCache > 0 then c.memberCountCache
  else (s.memberships.filter fun m => m.communityId == c.id).length

/-- `CommunityService.join_community` (`community_service.py:88-116`):
refuse when a row already exists, else create a `member` row whose status is
`pending` when the community requires approval and `approved` otherwise.
Row creation fires the member-count signal. -/
def join_community (s : State) (uid : Nat) (c : Community) :
    Option Membership × String × State :=
  if s.memberships.any (fun m => m.userId == uid && m.communityId == c.id) then
    (none, "You are already a member of this community.", s)
  else if c.requiresApproval then
    let m : Membership := ⟨uid, c.id, Role.member, MStatus.pending⟩
    let s1 : State := { s with memberships := s.memberships ++ [m] }
    (some m, "Join request submitted. An admin will review your request.",
      update_community_member_count s1 c.id)
  else
    let m : Membership := ⟨uid, c.id, Role.member, MStatus.approved⟩
    let s1 : State := { s with memberships := s.memberships ++ [m] }
    (some m, "You have successfully joined this community.",
      update_community_member_count s1 c.id)

/-- Write a community's `member_count_cache` field
(`Community.objects.filter(id=...).update(member_count_cache=...)`). -/
def setMemberCountCache (s : State) (cid n : Nat) : State :=
  { s with
    communities := s.communities.map fun c =>
      if c.id == cid then { c with memberCountCache := n } else c }

/-- `CommunityService.leave_community` (`community_service.py:118-177`):
look up the (user, community) row (any status); refuse when absent, or when
the row's role is admin and the community has exactly one admin-role row
(any status).  Otherwise delete the row (firing the member-count signal),
then — using the `community` argument's pre-call cache value — decrement
`member_count_cache` when that value was positive. -/
def leave_community (s : State) (uid : Nat) (c : Community) : Bool × String × State :=
  match s.memberships.find? (fun m => m.userId == uid && m.communityId == c.id) with
  | none => (false, "You are not a member of this community.", s)
  | some m =>
    if m.role == Role.admin && adminRoleCount s.memberships c.id == 1 then
      (false,
        "You cannot leave the community as you are the only admin. Please make another user an admin first.",
        s)
    else
      let s1 : State :=
        { s with
          memberships := s.memberships.filter fun m2 =>
            !(m2.userId == uid && m2.communityId == c.id) }
      let s2 := update_community_member_count s1 c.id
      let s3 := if c.memberCountCache > 0 then setMemberCountCache s2 c.id (c.memberCountCache - 1) else s2
      (true, "You have successfully left this community.", s3)

/-- `Membership.ROLE_CHOICES` keys, the `valid_roles` list of
`update_member_role` (`community_service.py:235`). -/
def validRoles : List String := ["member", "moderator", "admin"]

/-- Decode a validated role string into the `Role` enum. -/
def roleOfString (r : String) : Role :=
  if r == "admin" then Role.admin
  else if r == "moderator" then Role.moderator
  else Role.member

/-- `CommunityService.update_member_role` (`community_service.py:228-257`):
validate the role string; find the target's row (any status); when the target
is the caller, the new role is not admin and the community has exactly one
admin-role row (any status), refuse; else write the new role (the save fires
the member-count signal). -/
def update_member_role (s : State) (c : Community) (targetUid : Nat) (newRole : String)
    (currentUid : Nat) : Bool × String × State :=
  if !validRoles.contains newRole then
    (false, "Invalid role. Must be one of: member, moderator, admin", s)
  else
    match s.memberships.find? (fun m => m.userId == targetUid && m.communityId == c.id) with
    | none => (false, "User is not a member of this community.", s)
    | some _ =>
      if targetUid == currentUid && newRole != "admin" &&
          adminRoleCount s.memberships c.id == 1 then
        (false, "You cannot change your role as you are the only admin.", s)
      else
        let s1 : State :=
          { s with
            memberships := s.memberships.map fun m =>
              if m.userId == targetUid && m.communityId == c.id then
                { m with role := roleOfString newRole }
              else m }
        (true, "User role updated to " ++ newRole ++ ".",
          update_community_member_count s1 c.id)

/-- `PostService.validate_post_creation` (`post_service.py:194-236`), cold
cache: for the community's creator, `Membership.objects.get_or_create(user,
community, defaults=role admin, status approved)` — creating the row when
absent (and firing the member-count signal); for anyone else, require an
approved row and deny (`none`) when there is none. -/
def validate_post_creation (s : State) (uid : Nat) (c : Community) :
    Option Membership × State :=
  if c.creatorId == uid then
    match s.memberships.find? (fun m => m.userId == uid && m.communityId == c.id) with
    | some m => (some m, s)
    | none =>
      let m : Membership := ⟨uid, c.id, Role.admin, MStatus.approved⟩
      let s1 : State := { s with memberships := s.memberships ++ [m] }
      (some m, update_community_member_count s1 c.id)
  else
    match s.memberships.find? (fun m =>
        m.userId == uid && m.communityId == c.id && m.status == MStatus.approved) with
    | some m => (some m, s)
    | none => (none, s)

/-- `PostService.toggle_post_upvote` (`post_service.py:238-276`), cold cache:
the membership gate queries the database (approved row or community creator);
then the M2M add/remove fires the `update_post_upvote_count` signal
(`signals.py:71-78`, recompute from `upvotes.count()`) before the service
writes `max(0, cache-1)` resp. `cache+1` from its in-memory value.
`c` is `post.community`. -/
def toggle_post_upvote (s : State) (p : Post) (c : Community) (uid : Nat) :
    Bool × String × Post :=
  let isMember := isApprovedMember s.memberships uid p.communityId
  let isCreator := c.creatorId == uid
  if !(isMember || isCreator) then
    (false, "You must be a member of this community to upvote posts.", p)
  else if p.upvotes.contains uid then
    let p1 : Post := { p with upvotes := p.upvotes.filter fun v => v != uid }
    let p2 : Post := { p1 with upvoteCountCache := (p1.upvotes.length : Int) }
    let p3 : Post := { p2 with upvoteCountCache := max 0 (p.upvoteCountCache - 1) }
    (false, "Upvote removed.", p3)
  else
    let p1 : Post := { p with upvotes := p.upvotes ++ [uid] }
    let p2 : Post := { p1 with upvoteCountCache := (p1.upvotes.length : Int) }
    let p3 : Post := { p2 with upvoteCountCache := p.upvoteCountCache + 1 }
    (true, "Post upvoted.", p3)

/-- The successive values written to the persisted `upvote_count_cache` field
during one `toggle_post_upvote` call that passes the membership gate: first
the signal's recompute from the changed M2M set, then the service's own
arithmetic write. -/
def toggleCacheWrites (p : Post) (uid : Nat) : List Int :=
  if p.upvotes.contains uid then
    [((p.upvotes.filter fun v => v != uid).length : Int), max 0 (p.upvoteCountCache - 1)]
  else
    [((p.upvotes ++ [uid]).length : Int), p.upvoteCountCache + 1]

/-- `BaseCommunityPermission.is_community_admin` (`base_permissions.py:10-25`):
anonymous ⇒ false; the community's creator ⇒ true; else an approved row with
role admin or moderator. -/
def is_community_admin (s : State) (viewer : Option Nat) (c : Community) : Bool :=
  match viewer with
  | none => false
  | some uid =>
    if c.creatorId == uid then true
    else s.memberships.any fun m =>
      m.userId == uid && m.communityId == c.id &&
        (m.role == Role.admin || m.role == Role.moderator) && m.status == MStatus.approved

/-- `BaseCommunityPermission.is_community_member` (`base_permissions.py:27-41`):
anonymous ⇒ false; the creator ⇒ true; else an approved row. -/
def is_community_member (s : State) (viewer : Option Nat) (c : Community) : Bool :=
  match viewer with
  | none => false
  | some uid =>
    if c.creatorId == uid then true
    else isApprovedMember s.memberships uid c.id

/-- `CommunitySerializer.get_is_member` (`community_serializers.py:63-80`),
cold cache: anonymous ⇒ false; the creator ⇒ true; else
`obj.members.filter(id=user.id).exists()` — any row regardless of status. -/
def get_is_member (s : State) (viewer : Option Nat) (c : Community) : Bool :=
  match viewer with
  | none => false
  | some uid =>
    if c.creatorId == uid then true
    else s.memberships.any fun m => m.userId == uid && m.communityId == c.id

/-- `CommunitySerializer.get_membership_status` (`community_serializers.py:82-103`),
cold cache: anonymous ⇒ none; the creator ⇒ approved; else the row's status. -/
def get_membership_status (s : State) (viewer : Option Nat) (c : Community) :
    Option MStatus :=
  match viewer with
  | none => none
  | some uid =>
    if c.creatorId == uid then some MStatus.approved
    else
      match s.memberships.find? (fun m => m.userId == uid && m.communityId == c.id) with
      | some m => some m.status
      | none => none

/-- `CommunitySerializer.get_membership_role` (`community_serializers.py:105-126`),
cold cache: anonymous ⇒ none; the creator ⇒ admin; else the row's role. -/
def get_membership_role (s : State) (viewer : Option Nat) (c : Community) :
    Option Role :=
  match viewer with
  | none => none
  | some uid =>
    if c.creatorId == uid then some Role.admin
    else
      match s.memberships.find? (fun m => m.userId == uid && m.communityId == c.id) with
      | some m => some m.role
      | none => none

/-- The subset of a community-update payload covering the modelled columns
(`update_community_with_lock` applies only allow-listed fields,
`community_service.py:486-489`). -/
structure UpdateData where
  name : Option String
  isPrivate : Option Bool
  requiresApproval : Option Bool
deriving DecidableEq, Repr

/-- `CommunityService.update_community_with_lock`
(`community_service.py:459-511`), returning the source's
`(community | None, error_message | None)` pair.  `saveError` stands for the
outcome of `community.save()` under the row lock: `none` when the commit
succeeds, `some e` when the database raises `IntegrityError(e)` — raised or
not by the store depending on concurrent state outside this model.  A message
containing `communities_community_name_key` is mapped to the duplicate-name
conflict message, any other integrity error to the generic database error. -/
def update_community_with_lock (s : State) (communityId : Nat) (d : UpdateData)
    (uid : Nat) (saveError : Option String) : Option Community × Option String :=
  match s.communities.find? (fun c => c.id == communityId) with
  | none => (none, some "Community not found.")
  | some c =>
    if c.creatorId != uid &&
        !(s.memberships.any fun m =>
            m.communityId == c.id && m.userId == uid && m.role == Role.admin) then
      (none, some "You don't have permission to update this community.")
    else
      let c1 : Community :=
        { c with
          name := d.name.getD c.name,
          isPrivate := d.isPrivate.getD c.isPrivate,
          requiresApproval := d.requiresApproval.getD c.requiresApproval }
      match saveError with
      | none => (some c1, none)
      | some e =>
        if (e.splitOn "communities_community_name_key").length > 1 then
          (none, some "A community with this name already exists.")
        else (none, some ("Database error: " ++ e))

/-- `unique_together = ('user', 'community')` on `Membership`: at most one
row per (user, community) pair. -/
def uniqueMemberships (ms : List Membership) : Prop :=
  ∀ m1 ∈ ms, ∀ m2 ∈ ms, m1.userId = m2.userId → m1.communityId = m2.communityId → m1 = m2

instance (ms : List Membership) : Decidable (uniqueMemberships ms) := by
  unfold uniqueMemberships; infer_instance

/-! ### Helper lemmas shared between claims -/

lemma mem_approvedMemberCommunities (ms : List Membership) (uid cid : Nat) :
    cid ∈ approvedMemberCommunities ms uid ↔ isApprovedMember ms uid cid = true := by
  unfold approvedMemberCommunities isApprovedMember
  simp only [List.mem_map, List.mem_filter, List.any_eq_true, Bool.and_eq_true, beq_iff_eq]
  constructor
  · rintro ⟨m, ⟨hm, h1, h2⟩, h3⟩
    exact ⟨m, hm, ⟨h1, h3⟩, h2⟩
  · rintro ⟨m, hm, ⟨h1, h3⟩, h2⟩
    exact ⟨m, ⟨hm, h1, h2⟩, h3⟩

lemma mem_adminMemberCommunities (ms : List Membership) (uid cid : Nat) :
    cid ∈ adminMemberCommunities ms uid ↔ isApprovedAdmin ms uid cid = true := by
  unfold adminMemberCommunities isApprovedAdmin
  simp only [List.mem_map, List.mem_filter, List.any_eq_true, Bool.and_eq_true, beq_iff_eq]
  constructor
  · rintro ⟨m, ⟨hm, ⟨h1, h2⟩, h4⟩, h3⟩
    exact ⟨m, hm, ⟨⟨h1, h3⟩, h2⟩, h4⟩
  · rintro ⟨m, hm, ⟨⟨h1, h3⟩, h2⟩, h4⟩
    exact ⟨m, ⟨hm, ⟨h1, h2⟩, h4⟩, h3⟩

lemma communityOf_id {s : State} {p : Post} {c : Community}
    (hc : communityOf s p = some c) : c.id = p.communityId := by
  have h := List.find?_some hc
  exact beq_iff_eq.mp h

/-- A filter that drops the (uid, cid) rows is the identity on a membership
list that has none of them. -/
lemma filter_not_pair_eq_self {ms : List Membership} {uid cid : Nat}
    (h : ∀ m ∈ ms, ¬(m.userId = uid ∧ m.communityId = cid)) :
    (ms.filter fun m2 => !(m2.userId == uid && m2.communityId == cid)) = ms := by
  rw [List.filter_eq_self]
  intro m hm
  simp only [Bool.not_eq_true', Bool.and_eq_false_iff, beq_eq_false_iff_ne, ne_eq]
  have := h m hm
  by_cases h1 : m.userId = uid
  · exact Or.inr fun h2 => this ⟨h1, h2⟩
  · exact Or.inl h1

/-! ### C1 — bulk post-list query vs. the section 4.4 decision table -/

/-- C1 counterexample: community 0 is private and created by user 7, who has
no `Membership` row.  The decision table of section 4.4 ("authenticated,
admin or creator ⇒ yes") marks the pair (viewer 7, post 0) as allowed, but
the bulk query `get_post_queryset` omits the post: its three clauses are
built solely from `Membership` rows and have no creator fallback. -/
theorem C1_counterexample :
    (⟨0, 0, Visibility.vpublic, false, [], 0⟩ : Post) ∉
        get_post_queryset
          ⟨[⟨0, "a", "a", 7, true, false, 0⟩], [],
            [⟨0, 0, Visibility.vpublic, false, [], 0⟩]⟩ (some 7) ∧
      specVisible
          ⟨[⟨0, "a", "a", 7, true, false, 0⟩], [],
            [⟨0, 0, Visibility.vpublic, false, [], 0⟩]⟩ (some 7)
          ⟨0, 0, Visibility.vpublic, false, [], 0⟩
          ⟨0, "a", "a", 7, true, false, 0⟩ = true := by
  constructor
  · decide
  · decide

/-- C1 (amended): for every viewer who is not the creator of the post's
community, a post appears in the bulk query `get_post_queryset` exactly when
the section 4.4 decision table allows the pair — the bulk query is the union
of the three membership-derived clauses, and the table's "admin or creator"
state narrows to "holds an approved admin Membership row". -/
theorem C1_bulk_query_matches_table (s : State) (viewer : Option Nat) (p : Post)
    (c : Community) (hp : p ∈ s.posts) (hc : communityOf s p = some c)
    (hnc : ∀ uid, viewer = some uid → uid ≠ c.creatorId) :
    p ∈ get_post_queryset s viewer ↔ specVisible s viewer p c = true := by
  have hid : c.id = p.communityId := communityOf_id hc
  unfold get_post_queryset
  rw [List.mem_filter]
  simp only [hp, true_and]
  unfold postVisibleInQueryset specVisible
  rw [hc]
  cases viewer with
  | none => exact Iff.rfl
  | some uid =>
    have hcr : (uid == c.creatorId) = false := by
      simpa using hnc uid rfl
    have hmemb : (approvedMemberCommunities s.memberships uid).contains p.communityId =
        isApprovedMember s.memberships uid c.id := by
      rw [hid]
      have hiff := mem_approvedMemberCommunities s.memberships uid p.communityId
      by_cases h2 : p.communityId ∈ approvedMemberCommunities s.memberships uid
      · simp [h2, hiff.mp h2]
      · have h3 : isApprovedMember s.memberships uid p.communityId = false := by
          rw [← Bool.not_eq_true]
          exact fun hh => h2 (hiff.mpr hh)
        simp [h2, h3]
    have hadmb : (adminMemberCommunities s.memberships uid).contains p.communityId =
        isApprovedAdmin s.memberships uid c.id := by
      rw [hid]
      have hiff := mem_adminMemberCommunities s.memberships uid p.communityId
      by_cases h2 : p.communityId ∈ adminMemberCommunities s.memberships uid
      · simp [h2, hiff.mp h2]
      · have h3 : isApprovedAdmin s.memberships uid p.communityId = false := by
          rw [← Bool.not_eq_true]
          exact fun hh => h2 (hiff.mpr hh)
        simp [h2, h3]
    simp only [hmemb, hadmb, hcr, Bool.false_or]
    cases ha : isApprovedAdmin s.memberships uid c.id <;>
      cases hm : isApprovedMember s.memberships uid c.id <;>
        cases hv : p.visibility <;> cases hpriv : c.isPrivate <;> simp_all

/-- C1 witness: viewer 5 is an approved plain member (not the creator) of
private community 0; the members-visibility post is in the bulk query and the
table allows it. -/
theorem C1_witness :
    (⟨0, 0, Visibility.vmembers, false, [], 0⟩ : Post) ∈
        get_post_queryset
          ⟨[⟨0, "a", "a", 9, true, false, 0⟩],
            [⟨5, 0, Role.member, MStatus.approved⟩],
            [⟨0, 0, Visibility.vmembers, false, [], 0⟩]⟩ (some 5) ↔
      specVisible
          ⟨[⟨0, "a", "a", 9, true, false, 0⟩],
            [⟨5, 0, Role.member, MStatus.approved⟩],
            [⟨0, 0, Visibility.vmembers, false, [], 0⟩]⟩ (some 5)
          ⟨0, 0, Visibility.vmembers, false, [], 0⟩
          ⟨0, "a", "a", 9, true, false, 0⟩ :=
  C1_bulk_query_matches_table _ _ _ _ (by decide) (by decide)
    (fun uid h => by cases h; decide)

/-! ### C2 — single-post retrieve vs. the section 4.4 decision table -/

/-- C2 counterexample: user 7 created private community 0 and has no
`Membership` row.  The section 4.4 table ("admin or creator ⇒ yes") grants
the retrieve, but `PostViewSet.retrieve` resolves membership purely from the
approved `Membership` row, finds none, and denies because the community is
private. -/
theorem C2_counterexample :
    retrievePost
        ⟨[⟨0, "b", "b", 7, true, false, 0⟩], [],
          [⟨0, 0, Visibility.vmembers, false, [], 0⟩]⟩ (some 7)
        ⟨0, 0, Visibility.vmembers, false, [], 0⟩
        ⟨0, "b", "b", 7, true, false, 0⟩ = false ∧
      specVisible
        ⟨[⟨0, "b", "b", 7, true, false, 0⟩], [],
          [⟨0, 0, Visibility.vmembers, false, [], 0⟩]⟩ (some 7)
        ⟨0, 0, Visibility.vmembers, false, [], 0⟩
        ⟨0, "b", "b", 7, true, false, 0⟩ = true := by
  constructor
  · decide
  · decide

/-- C2 (amended): on a database whose `Membership` rows respect the
(user, community) uniqueness constraint, the single-post retrieve decision
equals the section 4.4 decision table for every viewer who is not the
community's creator: a non-member sees a post only when the community is not
private and the post is public, an approved member of any role sees public
and members posts but an admin-visibility post only when their role is
admin, and an approved admin sees every post.  The creator row of the table
only applies through an approved admin Membership row. -/
theorem C2_retrieve_matches_table (s : State) (viewer : Option Nat) (p : Post)
    (c : Community) (hu : uniqueMemberships s.memberships)
    (hnc : ∀ uid, viewer = some uid → uid ≠ c.creatorId) :
    retrievePost s viewer p c = specVisible s viewer p c := by
  cases viewer with
  | none =>
    unfold retrievePost specVisible
    cases p.visibility <;> cases c.isPrivate <;> rfl
  | some uid =>
    have hcr : (uid == c.creatorId) = false := by
      simpa using hnc uid rfl
    unfold retrievePost specVisible
    cases hfind : s.memberships.find? (fun m =>
        m.userId == uid && m.communityId == c.id && m.status == MStatus.approved) with
    | none =>
      have hfind' := List.find?_eq_none.mp hfind
      have hnm : isApprovedMember s.memberships uid c.id = false := by
        rw [← Bool.not_eq_true]
        intro hh
        unfold isApprovedMember at hh
        rw [List.any_eq_true] at hh
        obtain ⟨m, hm, hpm⟩ := hh
        exact hfind' m hm hpm
      have hna : isApprovedAdmin s.memberships uid c.id = false := by
        rw [← Bool.not_eq_true]
        intro hh
        unfold isApprovedAdmin at hh
        rw [List.any_eq_true] at hh
        obtain ⟨m, hm, hpm⟩ := hh
        simp only [Bool.and_eq_true] at hpm
        exact hfind' m hm (by simp [hpm.1.1.1, hpm.1.1.2, hpm.1.2])
      simp only [hfind, hcr, hnm, hna, Bool.or_self, Bool.false_or, if_false]
      cases p.visibility <;> cases c.isPrivate <;> decide
    | some m =>
      have hpm := List.find?_some hfind
      have hmm := List.mem_of_find?_eq_some hfind
      simp only [Bool.and_eq_true, beq_iff_eq] at hpm
      obtain ⟨⟨hm1, hm2⟩, hm3⟩ := hpm
      cases hr : m.role with
      | admin =>
        have hadm : isApprovedAdmin s.memberships uid c.id = true := by
          unfold isApprovedAdmin
          rw [List.any_eq_true]
          exact ⟨m, hmm, by simp [hm1, hm2, hm3, hr]⟩
        simp [hfind, hcr, hadm, hr]
      | member =>
        have hadm : isApprovedAdmin s.memberships uid c.id = false := by
          rw [← Bool.not_eq_true]
          intro hh
          unfold isApprovedAdmin at hh
          rw [List.any_eq_true] at hh
          obtain ⟨m2, hm2m, hpm2⟩ := hh
          simp only [Bool.and_eq_true, beq_iff_eq] at hpm2
          have := hu m2 hm2m m hmm (hpm2.1.1.1.trans hm1.symm)
            (hpm2.1.1.2.trans hm2.symm)
          rw [this] at hpm2
          rw [hr] at hpm2
          exact absurd hpm2.2 (by decide)
        have hmem : isApprovedMember s.memberships uid c.id = true := by
          unfold isApprovedMember
          rw [List.any_eq_true]
          exact ⟨m, hmm, by simp [hm1, hm2, hm3]⟩
        simp only [hfind, hcr, hadm, hmem, Bool.or_self, Bool.false_or, if_false,
          if_true, hr]
        cases p.visibility <;> decide
      | moderator =>
        have hadm : isApprovedAdmin s.memberships uid c.id = false := by
          rw [← Bool.not_eq_true]
          intro hh
          unfold isApprovedAdmin at hh
          rw [List.any_eq_true] at hh
          obtain ⟨m2, hm2m, hpm2⟩ := hh
          simp only [Bool.and_eq_true, beq_iff_eq] at hpm2
          have := hu m2 hm2m m hmm (hpm2.1.1.1.trans hm1.symm)
            (hpm2.1.1.2.trans hm2.symm)
          rw [this] at hpm2
          rw [hr] at hpm2
          exact absurd hpm2.2 (by decide)
        have hmem : isApprovedMember s.memberships uid c.id = true := by
          unfold isApprovedMember
          rw [List.any_eq_true]
          exact ⟨m, hmm, by simp [hm1, hm2, hm3]⟩
        simp only [hfind, hcr, hadm, hmem, Bool.or_self, Bool.false_or, if_false,
          if_true, hr]
        cases p.visibility <;> decide

/-- C2 witness: approved admin 4 of public community 1 retrieves an
admin-visibility post; the retrieve decision and the table agree. -/
theorem C2_witness :
    retrievePost
        ⟨[⟨1, "b", "b", 9, false, false, 0⟩],
          [⟨4, 1, Role.admin, MStatus.approved⟩],
          [⟨0, 1, Visibility.vadmin, false, [], 0⟩]⟩ (some 4)
        ⟨0, 1, Visibility.vadmin, false, [], 0⟩
        ⟨1, "b", "b", 9, false, false, 0⟩ =
      specVisible
        ⟨[⟨1, "b", "b", 9, false, false, 0⟩],
          [⟨4, 1, Role.admin, MStatus.approved⟩],
          [⟨0, 1, Visibility.vadmin, false, [], 0⟩]⟩ (some 4)
        ⟨0, 1, Visibility.vadmin, false, [], 0⟩
        ⟨1, "b", "b", 9, false, false, 0⟩ :=
  C2_retrieve_matches_table _ _ _ _ (by decide) (fun uid h => by cases h; decide)

/-! ### C3 — the at-least-one-admin guard -/

/-- C3 counterexample: community 0 (created by user 2) has exactly one
approved admin `Membership` row, held by user 1.  `update_member_role` called
by user 2 (the creator, who is not the row's user) reassigns user 1's role to
member and succeeds, leaving the community with zero approved admin rows: the
only-admin guard applies solely to self-service role changes. -/
theorem C3_counterexample :
    approvedAdminCount
        [(⟨1, 0, Role.admin, MStatus.approved⟩ : Membership)] 0 = 1 ∧
      (update_member_role
          ⟨[⟨0, "a", "a", 2, false, false, 1⟩],
            [⟨1, 0, Role.admin, MStatus.approved⟩], []⟩
          ⟨0, "a", "a", 2, false, false, 1⟩ 1 "member" 2).1 = true ∧
      approvedAdminCount
        (update_member_role
            ⟨[⟨0, "a", "a", 2, false, false, 1⟩],
              [⟨1, 0, Role.admin, MStatus.approved⟩], []⟩
            ⟨0, "a", "a", 2, false, false, 1⟩ 1 "member" 2).2.2.memberships 0 = 0 := by
  refine ⟨by decide, by decide, by decide⟩

/-- C3 (amended): the engine's only-admin protection covers the self-service
operations only — when a user's own row has role admin and the community has
exactly one admin-role row (counted regardless of status), that user's
`leave_community`, and their own `update_member_role` to a non-admin role,
both fail and leave the state unchanged.  A role reassignment performed on
another user's row is not guarded and can reduce the approved-admin count to
zero. -/
theorem C3_last_admin_self_guard (s : State) (c : Community) (uid : Nat)
    (m : Membership) (newRole : String)
    (hfind : s.memberships.find?
        (fun m2 => m2.userId == uid && m2.communityId == c.id) = some m)
    (hrole : m.role = Role.admin)
    (hcount : adminRoleCount s.memberships c.id = 1) :
    leave_community s uid c =
      (false,
        "You cannot leave the community as you are the only admin. Please make another user an admin first.",
        s) ∧
      (validRoles.contains newRole = true → newRole ≠ "admin" →
        update_member_role s c uid newRole uid =
          (false, "You cannot change your role as you are the only admin.", s)) := by
  constructor
  · unfold leave_community
    rw [hfind]
    simp [hrole, hcount]
  · intro hv hne
    unfold update_member_role
    rw [hv]
    simp only [Bool.not_true, Bool.false_eq_true, if_false]
    rw [hfind]
    have hbne : (newRole != "admin") = true := by
      simp [hne]
    simp [hbne, hcount]

/-- C3 witness: user 1 is the sole admin-role row of community 0; both the
leave attempt and the self-demotion to member are refused with the state
unchanged. -/
theorem C3_witness :
    leave_community
        ⟨[⟨0, "a", "a", 2, false, false, 1⟩],
          [⟨1, 0, Role.admin, MStatus.approved⟩], []⟩ 1
        ⟨0, "a", "a", 2, false, false, 1⟩ =
      (false,
        "You cannot leave the community as you are the only admin. Please make another user an admin first.",
        ⟨[⟨0, "a", "a", 2, false, false, 1⟩],
          [⟨1, 0, Role.admin, MStatus.approved⟩], []⟩) ∧
      (validRoles.contains "member" = true → "member" ≠ "admin" →
        update_member_role
            ⟨[⟨0, "a", "a", 2, false, false, 1⟩],
              [⟨1, 0, Role.admin, MStatus.approved⟩], []⟩
            ⟨0, "a", "a", 2, false, false, 1⟩ 1 "member" 1 =
          (false, "You cannot change your role as you are the only admin.",
            ⟨[⟨0, "a", "a", 2, false, false, 1⟩],
              [⟨1, 0, Role.admin, MStatus.approved⟩], []⟩)) :=
  C3_last_admin_self_guard _ _ _ ⟨1, 0, Role.admin, MStatus.approved⟩ "member"
    (by decide) (by decide) (by decide)

/-! ### C4 — creator fallback at the membership-resolving call sites -/

/-- C4 counterexample: user 7 created public community 0 and has no
`Membership` row.  The permission checks and the serializer resolve them as
an approved admin member, but the post-visibility bulk query — also a
membership-resolving call site named by the claim — has no creator fallback
and omits the members-visibility post of their own community. -/
theorem C4_counterexample :
    get_membership_status
        ⟨[⟨0, "a", "a", 7, false, false, 0⟩], [],
          [⟨0, 0, Visibility.vmembers, false, [], 0⟩]⟩ (some 7)
        ⟨0, "a", "a", 7, false, false, 0⟩ = some MStatus.approved ∧
      get_membership_role
        ⟨[⟨0, "a", "a", 7, false, false, 0⟩], [],
          [⟨0, 0, Visibility.vmembers, false, [], 0⟩]⟩ (some 7)
        ⟨0, "a", "a", 7, false, false, 0⟩ = some Role.admin ∧
      get_is_member
        ⟨[⟨0, "a", "a", 7, false, false, 0⟩], [],
          [⟨0, 0, Visibility.vmembers, false, [], 0⟩]⟩ (some 7)
        ⟨0, "a", "a", 7, false, false, 0⟩ = true ∧
      is_community_admin
        ⟨[⟨0, "a", "a", 7, false, false, 0⟩], [],
          [⟨0, 0, Visibility.vmembers, false, [], 0⟩]⟩ (some 7)
        ⟨0, "a", "a", 7, false, false, 0⟩ = true ∧
      (⟨0, 0, Visibility.vmembers, false, [], 0⟩ : Post) ∉
        get_post_queryset
          ⟨[⟨0, "a", "a", 7, false, false, 0⟩], [],
            [⟨0, 0, Visibility.vmembers, false, [], 0⟩]⟩ (some 7) := by
  refine ⟨by decide, by decide, by decide, by decide, by decide⟩

/-- C4 (amended): at the permission checks and the membership-status
serialization, the community's creator always resolves to
`{isMember: true, status: approved, role: admin}` regardless of any
`Membership` row; the post-visibility paths resolve membership from
`Membership` rows only and do not apply the creator fallback. -/
theorem C4_creator_fallback (s : State) (c : Community) (uid : Nat)
    (h : c.creatorId = uid) :
    is_community_admin s (some uid) c = true ∧
      is_community_member s (some uid) c = true ∧
      get_is_member s (some uid) c = true ∧
      get_membership_status s (some uid) c = some MStatus.approved ∧
      get_membership_role s (some uid) c = some Role.admin := by
  unfold is_community_admin is_community_member get_is_member get_membership_status
    get_membership_role
  simp [h]

/-- C4 witness: the creator fallback at the permission and serializer call
sites on a community with no rows at all. -/
theorem C4_witness :
    is_community_admin (⟨[⟨3, "x", "x", 11, true, true, 0⟩], [], []⟩ : State)
        (some 11) ⟨3, "x", "x", 11, true, true, 0⟩ = true ∧
      is_community_member (⟨[⟨3, "x", "x", 11, true, true, 0⟩], [], []⟩ : State)
        (some 11) ⟨3, "x", "x", 11, true, true, 0⟩ = true ∧
      get_is_member (⟨[⟨3, "x", "x", 11, true, true, 0⟩], [], []⟩ : State)
        (some 11) ⟨3, "x", "x", 11, true, true, 0⟩ = true ∧
      get_membership_status (⟨[⟨3, "x", "x", 11, true, true, 0⟩], [], []⟩ : State)
        (some 11) ⟨3, "x", "x", 11, true, true, 0⟩ = some MStatus.approved ∧
      get_membership_role (⟨[⟨3, "x", "x", 11, true, true, 0⟩], [], []⟩ : State)
        (some 11) ⟨3, "x", "x", 11, true, true, 0⟩ = some Role.admin :=
  C4_creator_fallback _ _ _ (by decide)

/-! ### C5 — is the creator ever persisted as a Membership row? -/

/-- C5 counterexample: community 0's creator (user 7) has no `Membership`
row; `validate_post_creation` — the post-creation authorization named by the
claim — runs `get_or_create` and persists an approved admin row whose user is
the creator. -/
theorem C5_counterexample :
    (⟨[⟨0, "a", "a", 7, false, false, 0⟩], [], []⟩ : State).memberships = [] ∧
      (validate_post_creation ⟨[⟨0, "a", "a", 7, false, false, 0⟩], [], []⟩ 7
          ⟨0, "a", "a", 7, false, false, 0⟩).2.memberships =
        [⟨7, 0, Role.admin, MStatus.approved⟩] := by
  refine ⟨by decide, by decide⟩

/-- C5 (amended): membership resolution never requires a creator row, but
post-creation authorization for the creator persists one: when the creator
has no (user, community) row, `validate_post_creation` succeeds and appends
exactly one approved admin `Membership` row whose user is the creator. -/
theorem C5_creator_row_created (s : State) (uid : Nat) (c : Community)
    (h : c.creatorId = uid)
    (hnorow : ∀ m ∈ s.memberships, ¬(m.userId = uid ∧ m.communityId = c.id)) :
    (validate_post_creation s uid c).1 =
        some ⟨uid, c.id, Role.admin, MStatus.approved⟩ ∧
      (validate_post_creation s uid c).2.memberships =
        s.memberships ++ [⟨uid, c.id, Role.admin, MStatus.approved⟩] := by
  have hfind : s.memberships.find?
      (fun m => m.userId == uid && m.communityId == c.id) = none := by
    rw [List.find?_eq_none]
    intro m hm
    simp only [Bool.and_eq_true, beq_iff_eq, not_and]
    intro h1 h2
    exact hnorow m hm ⟨h1, h2⟩
  unfold validate_post_creation
  simp [h, hfind, update_community_member_count]

/-- C5 witness: creator 7 with no prior row gets exactly the one approved
admin row persisted. -/
theorem C5_witness :
    (validate_post_creation ⟨[⟨0, "a", "a", 7, true, false, 2⟩],
          [⟨4, 0, Role.member, MStatus.approved⟩], []⟩ 7
        ⟨0, "a", "a", 7, true, false, 2⟩).1 =
        some ⟨7, 0, Role.admin, MStatus.approved⟩ ∧
      (validate_post_creation ⟨[⟨0, "a", "a", 7, true, false, 2⟩],
            [⟨4, 0, Role.member, MStatus.approved⟩], []⟩ 7
          ⟨0, "a", "a", 7, true, false, 2⟩).2.memberships =
        [⟨4, 0, Role.member, MStatus.approved⟩] ++
          [⟨7, 0, Role.admin, MStatus.approved⟩] :=
  C5_creator_row_created _ _ _ (by decide) (by decide)

/-! ### C6 — member count after a membership mutation settles -/

/-- C6 counterexample: community 0 has a single pending `Membership` row and
a stale `member_count_cache` of 3.  The mutation-path signal recomputes the
cache to the approved count 0, but the read path `member_count` then falls
back to `members.count()`, which counts every row regardless of status and
returns 1 ≠ 0. -/
theorem C6_counterexample :
    approvedCount [(⟨1, 0, Role.member, MStatus.pending⟩ : Membership)] 0 = 0 ∧
      (update_community_member_count
          ⟨[⟨0, "a", "a", 2, false, false, 3⟩],
            [⟨1, 0, Role.member, MStatus.pending⟩], []⟩ 0).communities =
        [⟨0, "a", "a", 2, false, false, 0⟩] ∧
      member_count
        (update_community_member_count
          ⟨[⟨0, "a", "a", 2, false, false, 3⟩],
            [⟨1, 0, Role.member, MStatus.pending⟩], []⟩ 0)
        ⟨0, "a", "a", 2, false, false, 0⟩ = 1 := by
  refine ⟨by decide, by decide, by decide⟩

/-- C6 (amended): once the membership-mutation signal has recomputed the
persisted `member_count_cache` as the approved-membership count, the read
path `member_count` returns exactly that count for every community whose
approved count is positive; when the approved count is zero the read path
instead returns the total number of `Membership` rows of any status. -/
theorem C6_member_count_settled (s : State) (cid : Nat) (c' : Community)
    (hmem : c' ∈ (update_community_member_count s cid).communities)
    (hid : c'.id = cid) (hpos : 0 < approvedCount s.memberships cid) :
    member_count (update_community_member_count s cid) c' =
      approvedCount s.memberships cid := by
  unfold update_community_member_count at hmem
  simp only [List.mem_map] at hmem
  obtain ⟨c, hc, hc'⟩ := hmem
  by_cases hcd : c.id = cid
  · rw [if_pos (beq_iff_eq.mpr hcd)] at hc'
    unfold member_count
    rw [← hc']
    simp only [update_community_member_count]
    rw [if_pos hpos]
  · rw [if_neg (by simpa using hcd)] at hc'
    rw [← hc'] at hid
    exact absurd hid hcd

/-- C6 witness: after the signal settles, a community with one approved and
one pending row reads member count 1 = approved count. -/
theorem C6_witness :
    member_count
        (update_community_member_count
          ⟨[⟨0, "a", "a", 2, false, false, 9⟩],
            [⟨1, 0, Role.member, MStatus.approved⟩,
              ⟨2, 0, Role.member, MStatus.pending⟩], []⟩ 0)
        ⟨0, "a", "a", 2, false, false, 1⟩ =
      approvedCount
        [⟨1, 0, Role.member, MStatus.approved⟩,
          ⟨2, 0, Role.member, MStatus.pending⟩] 0 :=
  C6_member_count_settled _ _ _ (by decide) (by decide) (by decide)

/-! ### C7 — upvote toggle round trip and counter non-negativity -/

/-- Every value written to the persisted upvote counter during a toggle that
passes the membership gate is non-negative, provided the field was
non-negative before. -/
lemma toggleCacheWrites_nonneg (p : Post) (uid : Nat)
    (hpos : 0 ≤ p.upvoteCountCache) : ∀ x ∈ toggleCacheWrites p uid, 0 ≤ x := by
  unfold toggleCacheWrites
  by_cases h : p.upvotes.contains uid = true
  · rw [if_pos h]
    intro x hx
    simp only [List.mem_cons, List.not_mem_nil, or_false] at hx
    rcases hx with h2 | h2
    · rw [h2]; exact Int.ofNat_nonneg _
    · rw [h2]; omega
  · rw [if_neg h]
    intro x hx
    simp only [List.mem_cons, List.not_mem_nil, or_false] at hx
    rcases hx with h2 | h2
    · rw [h2]; exact Int.ofNat_nonneg _
    · rw [h2]; omega

/-- C7 (confirmed): for a user entitled to upvote (approved member of the
post's community or its creator) who has not yet upvoted, toggling the
upvote on and then off restores the post's upvote set and its persisted
`upvote_count_cache` exactly, and every value written to the persisted
counter along the way — the signal recomputes and the service's
`max(0, ...)`/`+1` writes — is non-negative. -/
theorem C7_toggle_roundtrip (s : State) (p : Post) (c : Community) (uid : Nat)
    (hgate : isApprovedMember s.memberships uid p.communityId = true ∨ c.creatorId = uid)
    (hnot : uid ∉ p.upvotes) (hpos : 0 ≤ p.upvoteCountCache) :
    (toggle_post_upvote s p c uid).1 = true ∧
      (toggle_post_upvote s (toggle_post_upvote s p c uid).2.2 c uid).1 = false ∧
      (toggle_post_upvote s (toggle_post_upvote s p c uid).2.2 c uid).2.2.upvotes =
        p.upvotes ∧
      (toggle_post_upvote s (toggle_post_upvote s p c uid).2.2 c uid).2.2.upvoteCountCache =
        p.upvoteCountCache ∧
      (∀ x ∈ toggleCacheWrites p uid, 0 ≤ x) ∧
      (∀ x ∈ toggleCacheWrites (toggle_post_upvote s p c uid).2.2 uid, 0 ≤ x) := by
  have hgateb : (!(isApprovedMember s.memberships uid p.communityId ||
      (c.creatorId == uid))) = false := by
    rcases hgate with h | h
    · simp [h]
    · simp [h]
  have hcont : p.upvotes.contains uid = false := by
    rw [← Bool.not_eq_true]
    intro hh
    exact hnot (List.elem_iff.mp hh)
  have hfilter : (p.upvotes ++ [uid]).filter (fun v => v != uid) = p.upvotes := by
    rw [List.filter_append]
    have h2 : p.upvotes.filter (fun v => v != uid) = p.upvotes :=
      List.filter_eq_self.mpr (fun v hv => by
        simp only [bne_iff_ne, ne_eq, decide_eq_true_eq]
        exact fun h => hnot (h ▸ hv))
    simp [h2]
  have h1 : toggle_post_upvote s p c uid = (true, "Post upvoted.",
      { p with upvotes := p.upvotes ++ [uid],
               upvoteCountCache := p.upvoteCountCache + 1 }) := by
    unfold toggle_post_upvote
    simp [hgateb, hcont, hnot]
  have hcont2 : ((p.upvotes ++ [uid]).contains uid) = true :=
    List.elem_iff.mpr (by simp)
  have h2 : toggle_post_upvote s
      ({ p with upvotes := p.upvotes ++ [uid],
                upvoteCountCache := p.upvoteCountCache + 1 } : Post) c uid =
      (false, "Upvote removed.",
        { p with upvotes := p.upvotes,
                 upvoteCountCache := max 0 (p.upvoteCountCache + 1 - 1) }) := by
    unfold toggle_post_upvote
    simp [hgateb, hcont2, hfilter]
  have hmax : max 0 (p.upvoteCountCache + 1 - 1) = p.upvoteCountCache := by omega
  refine ⟨by rw [h1], by rw [h1, h2], by rw [h1, h2], by rw [h1, h2]; exact hmax,
    ?_, ?_⟩
  · exact toggleCacheWrites_nonneg p uid hpos
  · rw [h1]
    exact toggleCacheWrites_nonneg _ uid
      (show (0 : Int) ≤ p.upvoteCountCache + 1 by omega)

/-- C7 witness: member 4 of community 0 toggles an upvote on and off on a
post with one existing upvote; set and counter are restored and no write is
negative. -/
theorem C7_witness :
    (toggle_post_upvote
        ⟨[⟨0, "a", "a", 9, false, false, 0⟩],
          [⟨4, 0, Role.member, MStatus.approved⟩],
          [⟨0, 0, Visibility.vpublic, false, [3], 1⟩]⟩
        ⟨0, 0, Visibility.vpublic, false, [3], 1⟩
        ⟨0, "a", "a", 9, false, false, 0⟩ 4).1 = true ∧
      (toggle_post_upvote
          ⟨[⟨0, "a", "a", 9, false, false, 0⟩],
            [⟨4, 0, Role.member, MStatus.approved⟩],
            [⟨0, 0, Visibility.vpublic, false, [3], 1⟩]⟩
          (toggle_post_upvote
            ⟨[⟨0, "a", "a", 9, false, false, 0⟩],
              [⟨4, 0, Role.member, MStatus.approved⟩],
              [⟨0, 0, Visibility.vpublic, false, [3], 1⟩]⟩
            ⟨0, 0, Visibility.vpublic, false, [3], 1⟩
            ⟨0, "a", "a", 9, false, false, 0⟩ 4).2.2
          ⟨0, "a", "a", 9, false, false, 0⟩ 4).1 = false ∧
      (toggle_post_upvote
          ⟨[⟨0, "a", "a", 9, false, false, 0⟩],
            [⟨4, 0, Role.member, MStatus.approved⟩],
            [⟨0, 0, Visibility.vpublic, false, [3], 1⟩]⟩
          (toggle_post_upvote
            ⟨[⟨0, "a", "a", 9, false, false, 0⟩],
              [⟨4, 0, Role.member, MStatus.approved⟩],
              [⟨0, 0, Visibility.vpublic, false, [3], 1⟩]⟩
            ⟨0, 0, Visibility.vpublic, false, [3], 1⟩
            ⟨0, "a", "a", 9, false, false, 0⟩ 4).2.2
          ⟨0, "a", "a", 9, false, false, 0⟩ 4).2.2.upvotes = [3] ∧
      (toggle_post_upvote
          ⟨[⟨0, "a", "a", 9, false, false, 0⟩],
            [⟨4, 0, Role.member, MStatus.approved⟩],
            [⟨0, 0, Visibility.vpublic, false, [3], 1⟩]⟩
          (toggle_post_upvote
            ⟨[⟨0, "a", "a", 9, false, false, 0⟩],
              [⟨4, 0, Role.member, MStatus.approved⟩],
              [⟨0, 0, Visibility.vpublic, false, [3], 1⟩]⟩
            ⟨0, 0, Visibility.vpublic, false, [3], 1⟩
            ⟨0, "a", "a", 9, false, false, 0⟩ 4).2.2
          ⟨0, "a", "a", 9, false, false, 0⟩ 4).2.2.upvoteCountCache = 1 ∧
      (∀ x ∈ toggleCacheWrites (⟨0, 0, Visibility.vpublic, false, [3], 1⟩ : Post) 4,
        0 ≤ x) ∧
      (∀ x ∈ toggleCacheWrites
          (toggle_post_upvote
            ⟨[⟨0, "a", "a", 9, false, false, 0⟩],
              [⟨4, 0, Role.member, MStatus.approved⟩],
              [⟨0, 0, Visibility.vpublic, false, [3], 1⟩]⟩
            ⟨0, 0, Visibility.vpublic, false, [3], 1⟩
            ⟨0, "a", "a", 9, false, false, 0⟩ 4).2.2 4, 0 ≤ x) :=
  C7_toggle_roundtrip _ _ _ _ (Or.inl (by decide)) (by decide) (by decide)

/-! ### C8 — join then leave restores the no-row state -/

/-- C8 (confirmed): a non-creator user with no `Membership` row who joins a
community and then leaves it is restored to exactly "no Membership row": the
membership table returns to its prior value, whether the community requires
approval (pending row) or not (approved row). -/
theorem C8_join_leave_roundtrip (s : State) (uid : Nat) (c : Community)
    (hnorow : ∀ m ∈ s.memberships, ¬(m.userId = uid ∧ m.communityId = c.id))
    (_hnc : uid ≠ c.creatorId) :
    (leave_community (join_community s uid c).2.2 uid c).1 = true ∧
      (leave_community (join_community s uid c).2.2 uid c).2.2.memberships =
        s.memberships := by
  have hany : (s.memberships.any fun m =>
      m.userId == uid && m.communityId == c.id) = false := by
    rw [← Bool.not_eq_true, List.any_eq_true]
    rintro ⟨m, hm, hpm⟩
    simp only [Bool.and_eq_true, beq_iff_eq] at hpm
    exact hnorow m hm hpm
  have hfindnone : s.memberships.find? (fun m =>
      m.userId == uid && m.communityId == c.id) = none := by
    rw [List.find?_eq_none]
    intro m hm
    simp only [Bool.and_eq_true, beq_iff_eq, not_and]
    intro h1 h2
    exact hnorow m hm ⟨h1, h2⟩
  have hfilter : ∀ mNew : Membership, mNew.userId = uid → mNew.communityId = c.id →
      ((s.memberships ++ [mNew]).filter fun m2 =>
        !(m2.userId == uid && m2.communityId == c.id)) = s.memberships := by
    intro mNew hu hcid
    rw [List.filter_append, filter_not_pair_eq_self hnorow]
    simp [hu, hcid]
  have hleave : ∀ mNew : Membership, mNew.userId = uid → mNew.communityId = c.id →
      mNew.role = Role.member →
      (leave_community
        (update_community_member_count
          ({ s with memberships := s.memberships ++ [mNew] } : State) c.id) uid c).1 =
        true ∧
      (leave_community
        (update_community_member_count
          ({ s with memberships := s.memberships ++ [mNew] } : State) c.id) uid c).2.2.memberships =
        s.memberships := by
    intro mNew hu hcid hrole
    have hfind : ((s.memberships ++ [mNew]).find? fun m =>
        m.userId == uid && m.communityId == c.id) = some mNew := by
      rw [List.find?_append, hfindnone]
      simp [hu, hcid]
    unfold leave_community
    have hms : (update_community_member_count
        ({ s with memberships := s.memberships ++ [mNew] } : State) c.id).memberships =
        s.memberships ++ [mNew] := rfl
    rw [hms, hfind]
    simp only [hrole]
    rw [if_neg (by simp)]
    constructor
    · rfl
    · by_cases hcache : c.memberCountCache > 0
      · rw [if_pos hcache]
        exact hfilter mNew hu hcid
      · rw [if_neg hcache]
        exact hfilter mNew hu hcid
  unfold join_community
  rw [hany]
  simp only [Bool.false_eq_true, if_false]
  by_cases happ : c.requiresApproval
  · simp only [happ, if_true]
    exact hleave ⟨uid, c.id, Role.member, MStatus.pending⟩ rfl rfl rfl
  · simp only [happ, if_false]
    exact hleave ⟨uid, c.id, Role.member, MStatus.approved⟩ rfl rfl rfl

/-- C8 witness: user 4 joins and leaves approval-required community 0 (and
the state already holds another user's row, which survives untouched). -/
theorem C8_witness :
    (leave_community
        (join_community
          ⟨[⟨0, "a", "a", 9, false, true, 1⟩],
            [⟨5, 0, Role.admin, MStatus.approved⟩], []⟩ 4
          ⟨0, "a", "a", 9, false, true, 1⟩).2.2 4
        ⟨0, "a", "a", 9, false, true, 1⟩).1 = true ∧
      (leave_community
          (join_community
            ⟨[⟨0, "a", "a", 9, false, true, 1⟩],
              [⟨5, 0, Role.admin, MStatus.approved⟩], []⟩ 4
            ⟨0, "a", "a", 9, false, true, 1⟩).2.2 4
          ⟨0, "a", "a", 9, false, true, 1⟩).2.2.memberships =
        [⟨5, 0, Role.admin, MStatus.approved⟩] :=
  C8_join_leave_roundtrip _ _ _ (by decide) (by decide)

/-! ### C9 — outcomes of the locked community update -/

/-- The conflict message of `update_community_with_lock` differs from every
generic database-error message, whatever the integrity-error text. -/
lemma conflict_ne_db_error (e : String) :
    "A community with this name already exists." ≠ "Database error: " ++ e := by
  intro h
  have h2 : ("A community with this name already exists.").data.head? =
      ("Database error: " ++ e).data.head? := by rw [h]
  have h3 : ("Database error: " ++ e).data.head? = some 'D' := rfl
  rw [h3] at h2
  exact absurd h2 (by decide)

/-- The permission message of `update_community_with_lock` differs from every
generic database-error message. -/
lemma permission_ne_db_error (e : String) :
    "You don't have permission to update this community." ≠
      "Database error: " ++ e := by
  intro h
  have h2 : ("You don't have permission to update this community.").data.head? =
      ("Database error: " ++ e).data.head? := by rw [h]
  have h3 : ("Database error: " ++ e).data.head? = some 'D' := rfl
  rw [h3] at h2
  exact absurd h2 (by decide)

/-- C9 (confirmed): `update_community_with_lock` yields exactly one of five
mutually distinguishable outcomes — success carrying the updated community
and a `none` error; a not-found failure when the id resolves to no
community; a permission failure when the caller is neither the creator nor
the holder of an admin-role row; a duplicate-name conflict when the commit
raises an integrity error naming the name-uniqueness constraint; and a
generic database error on any other integrity error — and the five carry
pairwise distinct values, the conflict case distinguishable from both the
generic database error and the permission failure. -/
theorem C9_update_outcomes (s : State) (cid : Nat) (d : UpdateData) (uid : Nat)
    (saveError : Option String) :
    (s.communities.find? (fun c => c.id == cid) = none →
      update_community_with_lock s cid d uid saveError =
        (none, some "Community not found.")) ∧
      (∀ c, s.communities.find? (fun c2 => c2.id == cid) = some c →
        c.creatorId ≠ uid →
        (¬∃ m ∈ s.memberships,
          m.communityId = c.id ∧ m.userId = uid ∧ m.role = Role.admin) →
        update_community_with_lock s cid d uid saveError =
          (none, some "You don't have permission to update this community.")) ∧
      (∀ c, s.communities.find? (fun c2 => c2.id == cid) = some c →
        (c.creatorId = uid ∨ ∃ m ∈ s.memberships,
          m.communityId = c.id ∧ m.userId = uid ∧ m.role = Role.admin) →
        saveError = none →
        update_community_with_lock s cid d uid saveError =
          (some { c with
              name := d.name.getD c.name,
              isPrivate := d.isPrivate.getD c.isPrivate,
              requiresApproval := d.requiresApproval.getD c.requiresApproval },
            none)) ∧
      (∀ c e, s.communities.find? (fun c2 => c2.id == cid) = some c →
        (c.creatorId = uid ∨ ∃ m ∈ s.memberships,
          m.communityId = c.id ∧ m.userId = uid ∧ m.role = Role.admin) →
        saveError = some e →
        (e.splitOn "communities_community_name_key").length > 1 →
        update_community_with_lock s cid d uid saveError =
          (none, some "A community with this name already exists.")) ∧
      (∀ c e, s.communities.find? (fun c2 => c2.id == cid) = some c →
        (c.creatorId = uid ∨ ∃ m ∈ s.memberships,
          m.communityId = c.id ∧ m.userId = uid ∧ m.role = Role.admin) →
        saveError = some e →
        ¬((e.splitOn "communities_community_name_key").length > 1) →
        update_community_with_lock s cid d uid saveError =
          (none, some ("Database error: " ++ e))) ∧
      ("A community with this name already exists." ≠
        "You don't have permission to update this community.") ∧
      ("A community with this name already exists." ≠ "Community not found.") ∧
      (∀ e, "A community with this name already exists." ≠
        "Database error: " ++ e) ∧
      ("You don't have permission to update this community." ≠
        "Community not found.") ∧
      (∀ e, "You don't have permission to update this community." ≠
        "Database error: " ++ e) := by
  have hauth : ∀ c : Community,
      (c.creatorId = uid ∨ ∃ m ∈ s.memberships,
        m.communityId = c.id ∧ m.userId = uid ∧ m.role = Role.admin) →
      (c.creatorId != uid &&
        !(s.memberships.any fun m =>
          m.communityId == c.id && m.userId == uid && m.role == Role.admin)) = false := by
    intro c hc
    rcases hc with h | ⟨m, hm, h1, h2, h3⟩
    · simp [h]
    · have : (s.memberships.any fun m =>
          m.communityId == c.id && m.userId == uid && m.role == Role.admin) = true := by
        rw [List.any_eq_true]
        exact ⟨m, hm, by simp [h1, h2, h3]⟩
      simp [this]
  have hnoauth : ∀ c : Community, c.creatorId ≠ uid →
      (¬∃ m ∈ s.memberships,
        m.communityId = c.id ∧ m.userId = uid ∧ m.role = Role.admin) →
      (c.creatorId != uid &&
        !(s.memberships.any fun m =>
          m.communityId == c.id && m.userId == uid && m.role == Role.admin)) = true := by
    intro c h1 h2
    have hany : (s.memberships.any fun m =>
        m.communityId == c.id && m.userId == uid && m.role == Role.admin) = false := by
      rw [← Bool.not_eq_true, List.any_eq_true]
      rintro ⟨m, hm, hpm⟩
      simp only [Bool.and_eq_true, beq_iff_eq] at hpm
      exact h2 ⟨m, hm, hpm.1.1, hpm.1.2, hpm.2⟩
    simp [hany, h1]
  refine ⟨?_, ?_, ?_, ?_, ?_, by decide, by decide, conflict_ne_db_error, by decide,
    permission_ne_db_error⟩
  · intro hfind
    unfold update_community_with_lock
    rw [hfind]
  · intro c hfind h1 h2
    unfold update_community_with_lock
    rw [hfind]
    simp only [hnoauth c h1 h2, if_true]
  · intro c hfind hc hsave
    unfold update_community_with_lock
    rw [hfind]
    simp only [hauth c hc, Bool.false_eq_true, if_false, hsave]
  · intro c e hfind hc hsave hconf
    unfold update_community_with_lock
    rw [hfind]
    simp only [hauth c hc, Bool.false_eq_true, if_false, hsave]
    rw [if_pos hconf]
  · intro c e hfind hc hsave hconf
    unfold update_community_with_lock
    rw [hfind]
    simp only [hauth c hc, Bool.false_eq_true, if_false, hsave]
    rw [if_neg hconf]

/-- C9 witness: on a one-community state, the creator's update with a clean
save returns the success outcome with the renamed community. -/
theorem C9_witness :
    update_community_with_lock
        ⟨[⟨0, "old", "old", 2, false, false, 0⟩], [], []⟩ 0
        ⟨some "new", none, none⟩ 2 none =
      (some { (⟨0, "old", "old", 2, false, false, 0⟩ : Community) with
          name := (some "new").getD "old",
          isPrivate := (none : Option Bool).getD false,
          requiresApproval := (none : Option Bool).getD false }, none) :=
  ((C9_update_outcomes ⟨[⟨0, "old", "old", 2, false, false, 0⟩], [], []⟩ 0
      ⟨some "new", none, none⟩ 2 none).2.2.1)
    ⟨0, "old", "old", 2, false, false, 0⟩ (by decide) (Or.inl (by decide)) rfl

/-! ### C10 — refused upvote toggle mutates nothing -/

/-- C10 (confirmed): when the freshly resolved membership shows the user is
neither an approved member of the post's community nor its creator,
`toggle_post_upvote` returns the refusal `(false, message)` and the returned
post is exactly the input post — the error branch changes neither the upvote
set nor the persisted counter. -/
theorem C10_toggle_denied (s : State) (p : Post) (c : Community) (uid : Nat)
    (hnm : isApprovedMember s.memberships uid p.communityId = false)
    (hnc : c.creatorId ≠ uid) :
    toggle_post_upvote s p c uid =
      (false, "You must be a member of this community to upvote posts.", p) := by
  unfold toggle_post_upvote
  have h1 : (c.creatorId == uid) = false := by simpa using hnc
  simp [hnm, h1]

/-- C10 witness: user 6 — no membership row, not the creator — is refused
and the post (with its existing upvotes and counter) is returned unchanged. -/
theorem C10_witness :
    toggle_post_upvote
        ⟨[⟨0, "a", "a", 9, false, false, 0⟩],
          [⟨4, 0, Role.member, MStatus.approved⟩],
          [⟨0, 0, Visibility.vpublic, false, [3], 1⟩]⟩
        ⟨0, 0, Visibility.vpublic, false, [3], 1⟩
        ⟨0, "a", "a", 9, false, false, 0⟩ 6 =
      (false, "You must be a member of this community to upvote posts.",
        ⟨0, 0, Visibility.vpublic, false, [3], 1⟩) :=
  C10_toggle_denied _ _ _ _ (by decide) (by decide)

end UniHub
